import Mathlib

/-!
Shallow embedding of a fragment of the sentry web application:
the breadcrumb icon selector, the organization context accessor hooks,
the dashboards route container, and the expandable transaction-group
tree row, together with theorems checking the specification's claims.
-/

namespace Sentry

/-! ### Breadcrumb icon selector (src/unnamed/part_000) -/

/-- Breadcrumb category enumeration (`BreadcrumbType` from app/types/breadcrumbs).
The twelve members named in the selector's switch are listed as constructors;
`other` stands for any unrecognized or future member, which the switch sends to
its default branch. -/
inductive BreadcrumbType where
  | USER
  | UI
  | NAVIGATION
  | DEBUG
  | INFO
  | ERROR
  | HTTP
  | WARNING
  | QUERY
  | SYSTEM
  | SESSION
  | TRANSACTION
  | other (value : String)
  deriving DecidableEq, Repr

/-- Glyph identifiers imported from app/icons in the source file. -/
inductive GlyphKind where
  | iconUser
  | iconLocation
  | iconFix
  | iconInfo
  | iconFire
  | iconSwitch
  | iconWarning
  | iconStack
  | iconMobile
  | iconRefresh
  | iconSpan
  | iconTerminal
  deriving DecidableEq, Repr

/-- A rendered icon element: which glyph component, and the size prop it is
given (every branch of the selector passes size "xs"). -/
structure Glyph where
  kind : GlyphKind
  size : String
  deriving DecidableEq, Repr

/-- The `Icon` function of src/unnamed/part_000: a switch on the breadcrumb
type, returning one glyph element per branch, with `IconTerminal` as the
default branch. -/
def Icon : BreadcrumbType → Glyph
  | .USER | .UI => { kind := .iconUser, size := "xs" }
  | .NAVIGATION => { kind := .iconLocation, size := "xs" }
  | .DEBUG => { kind := .iconFix, size := "xs" }
  | .INFO => { kind := .iconInfo, size := "xs" }
  | .ERROR => { kind := .iconFire, size := "xs" }
  | .HTTP => { kind := .iconSwitch, size := "xs" }
  | .WARNING => { kind := .iconWarning, size := "xs" }
  | .QUERY => { kind := .iconStack, size := "xs" }
  | .SYSTEM => { kind := .iconMobile, size := "xs" }
  | .SESSION => { kind := .iconRefresh, size := "xs" }
  | .TRANSACTION => { kind := .iconSpan, size := "xs" }
  | .other _ => { kind := .iconTerminal, size := "xs" }

/-- The twelve defined breadcrumb category values named by the switch. -/
def definedCategories : List BreadcrumbType :=
  [.USER, .UI, .NAVIGATION, .DEBUG, .INFO, .ERROR, .HTTP, .WARNING, .QUERY,
   .SYSTEM, .SESSION, .TRANSACTION]

/-- The fixed reference table read off the switch branches of the source:
each defined category paired with the glyph its branch returns. -/
def referenceTable : List (BreadcrumbType × GlyphKind) :=
  [(.USER, .iconUser), (.UI, .iconUser), (.NAVIGATION, .iconLocation),
   (.DEBUG, .iconFix), (.INFO, .iconInfo), (.ERROR, .iconFire),
   (.HTTP, .iconSwitch), (.WARNING, .iconWarning), (.QUERY, .iconStack),
   (.SYSTEM, .iconMobile), (.SESSION, .iconRefresh), (.TRANSACTION, .iconSpan)]

/-- All glyph identifiers the source file imports. -/
def glyphKinds : List GlyphKind :=
  [.iconUser, .iconLocation, .iconFix, .iconInfo, .iconFire, .iconSwitch,
   .iconWarning, .iconStack, .iconMobile, .iconRefresh, .iconSpan, .iconTerminal]

/-! ### Organization accessor (src/static/app/utils/useOrganization.tsx) -/

/-- Organization value held by the ambient context; only the fields this
fragment reads are carried: the slug projected by `useOrgSlug` and the
feature list consulted by the dashboards container. -/
structure Organization where
  slug : String
  features : List String
  deriving DecidableEq, Repr

/-- The `useOrganization` hook: reads the ambient `OrganizationContext` value
(modelled as an `Option Organization`); when it is unset it throws a
descriptive error, otherwise it returns the value unchanged. The thrown
error is modelled as the `Except.error` branch carrying the message. -/
def useOrganization : Option Organization → Except String Organization
  | none => .error "useOrganization called but organization is not set."
  | some organization => .ok organization

/-- The `useOrgSlug` hook: `return useOrganization().slug`, so the slug
projection applied to the result of the base accessor (an error propagates). -/
def useOrgSlug (ctx : Option Organization) : Except String String :=
  (useOrganization ctx).map Organization.slug

/-! ### Dashboards route container (src/static/app/views/dashboardsV2/index.tsx) -/

/-- The `DashboardState` enumeration from dashboardsV2/types; the container
only ever uses `VIEW`. -/
inductive DashboardState where
  | VIEW
  | EDIT
  | CREATE
  deriving DecidableEq, Repr

/-- The render-prop argument supplied by the `OrgDashboards` data-loading
collaborator: an optional loaded dashboard, the dashboards list, the error
flag, and the `reloadData` callback (carried as an opaque token of type R). -/
structure OrgDashboardsRenderProps (D R : Type) where
  dashboard : Option D
  dashboards : List D
  error : Bool
  reloadData : R
  deriving DecidableEq, Repr

/-- What the no-feature branch renders inside the `DashboardBasicFeature` and
`OrgDashboards` wrappers: one of the three terminal outputs. -/
inductive OrgDashboardsView (D R : Type) where
  | notFound
  | detail (initialState : DashboardState) (dashboard : D) (dashboards : List D)
      (reloadData : R)
  | loading
  deriving DecidableEq, Repr

/-- The output of `DashboardsV2Container`: either the children rendered
verbatim (feature branch), or the basic-feature wrapper around one of the
three loader-driven views. -/
inductive DashboardsRender (C D R : Type) where
  | passThrough (children : C)
  | basicFeature (inner : OrgDashboardsView D R)
  deriving DecidableEq, Repr

/-- The `DashboardsV2Container` component. When the organization's feature
list includes "dashboards-edit" it renders its children in a fragment.
Otherwise it renders, from the loader's render-prop argument: `NotFound` if
the error flag is set, else the detail view (with `initialState = VIEW`, the
dashboard, the dashboards list and the reload callback) if a dashboard is
present, else the loading indicator. -/
def DashboardsV2Container {C D R : Type} (organization : Organization)
    (children : C) (loaded : OrgDashboardsRenderProps D R) :
    DashboardsRender C D R :=
  if organization.features.contains "dashboards-edit" then
    .passThrough children
  else
    .basicFeature <|
      if loaded.error then
        .notFound
      else
        match loaded.dashboard with
        | some dashboard =>
            .detail DashboardState.VIEW dashboard loaded.dashboards
              loaded.reloadData
        | none => .loading

/-! ### Transaction tree row
(src/static/app/views/performance/traceDetails/transactionGroup.tsx) -/

/-- The component state of `TransactionGroup`: a single boolean. -/
structure TGState where
  isExpanded : Bool
  deriving DecidableEq, Repr

/-- The state a `TransactionGroup` instance is created with:
`state = \x7bisExpanded: true\x7d`. -/
def TransactionGroup.initialState : TGState :=
  { isExpanded := true }

/-- The `toggleExpandedState` transition: the only `setState` call of the
component, flipping the boolean unconditionally. -/
def toggleExpandedState (s : TGState) : TGState :=
  { isExpanded := !s.isExpanded }

/-- Token standing for the bound `toggleExpandedState` callback the row
passes to its bar. -/
inductive ToggleCallback where
  | toggleExpandedState
  deriving DecidableEq, Repr

/-- The props of `TransactionGroup`. Externally-defined opaque shapes
(location, organization value, transaction node, trace info, tree depth,
child elements) are type parameters. -/
structure TransactionGroupProps (L O T TI TD C : Type) where
  location : L
  organization : O
  transaction : T
  traceInfo : TI
  continuingDepths : List TD
  isOrphan : Bool
  isLast : Bool
  index : Nat
  isVisible : Bool
  renderedChildren : List C
  barColour : Option String
  deriving DecidableEq, Repr

/-- The props the row passes to its `TransactionBar`. -/
structure TransactionBarProps (L O T TI TD : Type) where
  location : L
  organization : O
  index : Nat
  transaction : T
  traceInfo : TI
  continuingDepths : List TD
  isOrphan : Bool
  isLast : Bool
  isExpanded : Bool
  toggleExpandedState : ToggleCallback
  isVisible : Bool
  barColour : Option String
  deriving DecidableEq, Repr

/-- One element of the fragment the row renders: its bar, or one of the
caller-supplied pre-rendered children. -/
inductive RenderNode (L O T TI TD C : Type) where
  | transactionBar (props : TransactionBarProps L O T TI TD)
  | childNode (child : C)
  deriving DecidableEq, Repr

/-- The bar props built in `render`: the row's own props passed through,
plus the current expansion state and the toggle callback. -/
def transactionBarProps {L O T TI TD C : Type}
    (p : TransactionGroupProps L O T TI TD C) (s : TGState) :
    TransactionBarProps L O T TI TD :=
  { location := p.location
    organization := p.organization
    index := p.index
    transaction := p.transaction
    traceInfo := p.traceInfo
    continuingDepths := p.continuingDepths
    isOrphan := p.isOrphan
    isLast := p.isLast
    isExpanded := s.isExpanded
    toggleExpandedState := .toggleExpandedState
    isVisible := p.isVisible
    barColour := p.barColour }

/-- The `render` method of `TransactionGroup`: a fragment holding the bar,
followed by `isExpanded && renderedChildren`, i.e. the pre-rendered children
exactly when the current state is expanded. -/
def TransactionGroup.render {L O T TI TD C : Type}
    (p : TransactionGroupProps L O T TI TD C) (s : TGState) :
    List (RenderNode L O T TI TD C) :=
  RenderNode.transactionBar (transactionBarProps p s) ::
    (if s.isExpanded then p.renderedChildren.map RenderNode.childNode else [])

/-- A row of independently mounted `TransactionGroup` instances, each owning
its own state cell; `toggleInstance i` is instance i invoking its own
`toggleExpandedState`, which touches no other instance's cell. -/
def toggleInstance : Nat → List TGState → List TGState
  | _, [] => []
  | 0, s :: rest => toggleExpandedState s :: rest
  | i + 1, s :: rest => s :: toggleInstance i rest

/-! ### Concrete fixtures used to instantiate the polymorphic theorems -/

/-- Sample transaction-group props: unit-valued external shapes and two
string children. -/
def sampleGroupProps : TransactionGroupProps Unit Unit Unit Unit Unit String :=
  { location := ()
    organization := ()
    transaction := ()
    traceInfo := ()
    continuingDepths := []
    isOrphan := false
    isLast := true
    index := 0
    isVisible := true
    renderedChildren := ["A", "B"]
    barColour := none }

/-- The collapsed expansion state. -/
def collapsedState : TGState :=
  { isExpanded := false }

/-- Sample organization without the dashboards-edit feature. -/
def acme : Organization :=
  { slug := "acme", features := [] }

/-- Sample organization with the dashboards-edit feature. -/
def acmeEdit : Organization :=
  { slug := "acme", features := ["dashboards-edit"] }

/-- Sample loader result holding dashboard 7, error flag clear. -/
def loadedResult : OrgDashboardsRenderProps Nat Unit :=
  { dashboard := some 7, dashboards := [7], error := false, reloadData := () }

/-- Sample loader result with the error flag set and no dashboard. -/
def erroredResult : OrgDashboardsRenderProps Nat Unit :=
  { dashboard := none, dashboards := [], error := true, reloadData := () }

/-! ### Theorems for the claims -/

/-- C1 counterexample: USER and UI are distinct defined breadcrumb categories,
yet the Icon selector returns the same glyph element for both, so the claim
that no two distinct defined category values map to the same glyph is false. -/
theorem icon_user_ui_collision :
    BreadcrumbType.USER ≠ BreadcrumbType.UI ∧
      Icon BreadcrumbType.USER = Icon BreadcrumbType.UI := by
  decide

/-- C1 (amended): every defined breadcrumb category maps to the glyph of the
fixed reference table read off the source, and for defined categories the
selector is injective except that USER and UI share the user glyph: two
defined categories get equal glyphs exactly when they are equal or are the
pair USER, UI. -/
theorem icon_table_and_distinctness :
    (∀ entry ∈ referenceTable, Icon entry.1 = { kind := entry.2, size := "xs" }) ∧
    ∀ a ∈ definedCategories, ∀ b ∈ definedCategories,
      (Icon a = Icon b ↔
        a = b ∨ (a = BreadcrumbType.USER ∧ b = BreadcrumbType.UI) ∨
          (a = BreadcrumbType.UI ∧ b = BreadcrumbType.USER)) := by
  decide

/-- C1 witness: the amended distinctness statement instantiated at the
concrete defined categories NAVIGATION and DEBUG. -/
theorem icon_table_and_distinctness_witness :
    Icon BreadcrumbType.NAVIGATION = Icon BreadcrumbType.DEBUG ↔
      BreadcrumbType.NAVIGATION = BreadcrumbType.DEBUG ∨
        (BreadcrumbType.NAVIGATION = BreadcrumbType.USER ∧
          BreadcrumbType.DEBUG = BreadcrumbType.UI) ∨
        (BreadcrumbType.NAVIGATION = BreadcrumbType.UI ∧
          BreadcrumbType.DEBUG = BreadcrumbType.USER) :=
  icon_table_and_distinctness.2 BreadcrumbType.NAVIGATION (by decide)
    BreadcrumbType.DEBUG (by decide)

/-- C7: the Icon selector is total and pure: every input, the `other` inputs
included, yields one of the defined glyph identifiers at size "xs";
unrecognized values fall back to the default terminal glyph; and equal
inputs give equal outputs. -/
theorem icon_total_pure :
    (∀ t : BreadcrumbType, (Icon t).kind ∈ glyphKinds ∧ (Icon t).size = "xs") ∧
    (∀ value : String,
      Icon (BreadcrumbType.other value) =
        { kind := GlyphKind.iconTerminal, size := "xs" }) ∧
    ∀ a b : BreadcrumbType, a = b → Icon a = Icon b := by
  refine ⟨fun t => ?_, fun value => rfl, fun a b h => h ▸ rfl⟩
  cases t <;> simp [Icon, glyphKinds]

/-- C7 witness: totality at the unrecognized value "custom", the default
fallback there, and determinism at HTTP. -/
theorem icon_total_pure_witness :
    ((Icon (BreadcrumbType.other "custom")).kind ∈ glyphKinds ∧
      (Icon (BreadcrumbType.other "custom")).size = "xs") ∧
    Icon (BreadcrumbType.other "custom") =
      { kind := GlyphKind.iconTerminal, size := "xs" } ∧
    Icon BreadcrumbType.HTTP = Icon BreadcrumbType.HTTP :=
  ⟨icon_total_pure.1 (BreadcrumbType.other "custom"),
    icon_total_pure.2.1 "custom",
    icon_total_pure.2.2 BreadcrumbType.HTTP BreadcrumbType.HTTP rfl⟩

/-- C2: the expansion state machine has initial state expanded; the toggle
transition flips the state unconditionally; and applying toggle twice
returns every state to itself. Toggle is the only state-changing operation
in the embedding, mirroring the single `setState` call of the component. -/
theorem expansion_state_machine :
    TransactionGroup.initialState.isExpanded = true ∧
    (∀ s : TGState, (toggleExpandedState s).isExpanded = !s.isExpanded) ∧
    ∀ s : TGState, toggleExpandedState (toggleExpandedState s) = s := by
  refine ⟨rfl, fun s => rfl, fun s => ?_⟩
  simp [toggleExpandedState]

/-- C3: for every props record and every state, the rendered fragment starts
with the row's bar carrying the passed-through props, the current expansion
state and the toggle callback; a child element occurs in the output iff the
state is expanded and it is one of the caller-supplied rendered children; and
in the collapsed state the output is the bar alone. -/
theorem render_contract {L O T TI TD C : Type}
    (p : TransactionGroupProps L O T TI TD C) (s : TGState) :
    (TransactionGroup.render p s).head? =
      some (RenderNode.transactionBar (transactionBarProps p s)) ∧
    (∀ c : C,
      RenderNode.childNode c ∈ TransactionGroup.render p s ↔
        s.isExpanded = true ∧ c ∈ p.renderedChildren) ∧
    (s.isExpanded = false →
      TransactionGroup.render p s =
        [RenderNode.transactionBar (transactionBarProps p s)]) := by
  refine ⟨rfl, fun c => ?_, fun h => ?_⟩
  · by_cases he : s.isExpanded <;>
      simp [TransactionGroup.render, he, List.mem_map]
  · simp [TransactionGroup.render, h]

/-- C3 witness: the render contract instantiated at concrete props over
unit-valued external shapes with two string children, in the collapsed
state. -/
theorem render_contract_witness :
    (TransactionGroup.render sampleGroupProps collapsedState).head? =
      some (RenderNode.transactionBar
        (transactionBarProps sampleGroupProps collapsedState)) ∧
    (RenderNode.childNode "A" ∈
        TransactionGroup.render sampleGroupProps collapsedState ↔
      collapsedState.isExpanded = true ∧
        "A" ∈ sampleGroupProps.renderedChildren) :=
  ⟨(render_contract sampleGroupProps collapsedState).1,
    (render_contract sampleGroupProps collapsedState).2.1 "A"⟩

/-- Toggling one instance leaves every other index of the state row
untouched. -/
theorem toggleInstance_getElem_ne (i : Nat) :
    ∀ (states : List TGState) (j : Nat), i ≠ j →
      (toggleInstance i states)[j]? = states[j]? := by
  induction i with
  | zero =>
    intro states j h
    cases states with
    | nil => rfl
    | cons s rest =>
      cases j with
      | zero => exact absurd rfl h
      | succ j => simp [toggleInstance]
  | succ i ih =>
    intro states j h
    cases states with
    | nil => rfl
    | cons s rest =>
      cases j with
      | zero => simp [toggleInstance]
      | succ j =>
        simp only [toggleInstance, List.getElem?_cons_succ]
        exact ih rest j (by omega)

/-- C8: expansion state is owned per instance: invoking the toggle transition
on instance i of a row of independently-created instances leaves every other
instance j's state cell unchanged, and hence leaves the fragment instance j
renders (children visibility included) unchanged for any props. -/
theorem toggle_locality {L O T TI TD C : Type}
    (states : List TGState) (i j : Nat) (h : i ≠ j)
    (p : TransactionGroupProps L O T TI TD C) :
    (toggleInstance i states)[j]? = states[j]? ∧
    ((toggleInstance i states)[j]?).map (TransactionGroup.render p) =
      (states[j]?).map (TransactionGroup.render p) := by
  refine ⟨toggleInstance_getElem_ne i states j h, ?_⟩
  rw [toggleInstance_getElem_ne i states j h]

/-- C8 witness: in a row of two expanded instances, toggling instance 0
leaves instance 1's state and rendered fragment unchanged. -/
theorem toggle_locality_witness :
    (toggleInstance 0 [TGState.mk true, TGState.mk true])[1]? =
      [TGState.mk true, TGState.mk true][1]? ∧
    ((toggleInstance 0 [TGState.mk true, TGState.mk true])[1]?).map
        (TransactionGroup.render sampleGroupProps) =
      ([TGState.mk true, TGState.mk true][1]?).map
        (TransactionGroup.render sampleGroupProps) :=
  toggle_locality [TGState.mk true, TGState.mk true] 0 1 (by decide)
    sampleGroupProps

/-- C4: when the organization lacks the "dashboards-edit" feature, the
container renders exactly one of three loader-driven outputs, in priority
order: the not-found indicator when the error flag is set; otherwise the
detail view with initialState VIEW, the dashboard, the dashboards list and
the reload callback when a dashboard is present; otherwise the loading
indicator. -/
theorem container_without_feature {C D R : Type}
    (organization : Organization) (children : C)
    (loaded : OrgDashboardsRenderProps D R)
    (hf : organization.features.contains "dashboards-edit" = false) :
    (loaded.error = true →
      DashboardsV2Container organization children loaded =
        .basicFeature .notFound) ∧
    (∀ d : D, loaded.error = false → loaded.dashboard = some d →
      DashboardsV2Container organization children loaded =
        .basicFeature (.detail DashboardState.VIEW d loaded.dashboards
          loaded.reloadData)) ∧
    (loaded.error = false → loaded.dashboard = none →
      DashboardsV2Container organization children loaded =
        .basicFeature .loading) := by
  have hm : "dashboards-edit" ∉ organization.features := by simpa using hf
  refine ⟨fun he => ?_, fun d he hd => ?_, fun he hd => ?_⟩
  · simp [DashboardsV2Container, hm, he]
  · simp [DashboardsV2Container, hm, he, hd]
  · simp [DashboardsV2Container, hm, he, hd]

/-- C4 witness: an organization without the feature and a loader result
holding dashboard 7 with the error flag clear renders the detail view with
initialState VIEW. -/
theorem container_without_feature_witness :
    DashboardsV2Container acme "children" loadedResult =
      .basicFeature (.detail DashboardState.VIEW 7 [7] ()) :=
  (container_without_feature acme "children" loadedResult (by decide)).2.1
    7 rfl rfl

/-- C5: when the organization's feature list includes "dashboards-edit", the
container renders exactly its children verbatim, and the loader state has no
effect: any two loader results give the same output. -/
theorem container_with_feature {C D R : Type}
    (organization : Organization) (children : C)
    (loaded loadedAlt : OrgDashboardsRenderProps D R)
    (hf : organization.features.contains "dashboards-edit" = true) :
    DashboardsV2Container organization children loaded =
      .passThrough children ∧
    DashboardsV2Container organization children loaded =
      DashboardsV2Container organization children loadedAlt := by
  have hm : "dashboards-edit" ∈ organization.features := by simpa using hf
  constructor <;> simp [DashboardsV2Container, hm]

/-- C5 witness: an organization with the feature renders its children
verbatim, for a loader result whose error flag is even set. -/
theorem container_with_feature_witness :
    DashboardsV2Container acmeEdit "children" erroredResult =
      .passThrough "children" ∧
    DashboardsV2Container acmeEdit "children" erroredResult =
      DashboardsV2Container acmeEdit "children" loadedResult :=
  container_with_feature acmeEdit "children" erroredResult loadedResult
    (by decide)

/-- C6: the organization accessor fails with the descriptive error exactly
when the ambient context value is unset, and on a set context it returns
that value unchanged, never a default. -/
theorem useOrganization_guard :
    (∀ ctx : Option Organization,
      (∃ msg, useOrganization ctx = .error msg) ↔ ctx = none) ∧
    (∀ o : Organization, useOrganization (some o) = .ok o) ∧
    useOrganization none =
      .error "useOrganization called but organization is not set." := by
  refine ⟨fun ctx => ?_, fun o => rfl, rfl⟩
  cases ctx <;> simp [useOrganization]

/-- C6 witness: the accessor returns the concrete context value acme
unchanged. -/
theorem useOrganization_guard_witness :
    useOrganization (some acme) = .ok acme :=
  useOrganization_guard.2.1 acme

/-- C9: the derived accessor equals the slug projection composed with the
base accessor, and on a context holding an organization whose slug is
"acme" it returns "acme". -/
theorem useOrgSlug_composition :
    (∀ ctx : Option Organization,
      useOrgSlug ctx = (useOrganization ctx).map Organization.slug) ∧
    ∀ features : List String,
      useOrgSlug (some { slug := "acme", features := features }) =
        .ok "acme" := by
  exact ⟨fun ctx => rfl, fun features => rfl⟩

/-- C9 witness: the composition identity and the acme projection at a
concrete context. -/
theorem useOrgSlug_composition_witness :
    useOrgSlug (some acmeEdit) =
      (useOrganization (some acmeEdit)).map Organization.slug ∧
    useOrgSlug (some acmeEdit) = .ok "acme" :=
  ⟨useOrgSlug_composition.1 (some acmeEdit),
    useOrgSlug_composition.2 ["dashboards-edit"]⟩

/-- C10: on an unset context the derived accessor also fails, propagating
the base accessor's descriptive error rather than producing a slug. -/
theorem useOrgSlug_unset_throws :
    useOrgSlug none =
      .error "useOrganization called but organization is not set." := by
  rfl

end Sentry
